import Mathlib

/-!
Verification of the working-time-recorder CLI (src/src/main.rs).

The tool is embedded shallowly: the process environment (the
`WORKING_TIME_RECORD` variable, the home directory, the current local
time) is an explicit `Env` record, and every observable action of a run
(reading the clock, printing a usage line, the single append-mode write)
is recorded in a trace of `Effect`s.  A Rust `Err(String)` is
`RunError.recoverable`, and a process abort through `.expect` (the
home-directory panic in `get_working_time_record_path`) is
`RunError.panic`; both end the run, but a panic is not a value the
caller could match on.  `write_to_file` composes the whole record as one
string and performs one append write, so the write is modelled as a
single `Effect.fileWrite path content` in the trace.
-/

/-- Rust's `Result<T, String>` error side, plus process aborts via `.expect`. -/
inductive RunError where
  | recoverable (msg : String)
  | panic (msg : String)
deriving DecidableEq

/-- Observable actions of one invocation, in program order. -/
inductive Effect where
  | clockRead
  | stdoutLine (s : String)
  | fileWrite (path content : String)
deriving DecidableEq

/-- The ambient process environment of one invocation: the
`WORKING_TIME_RECORD` variable (`none` = unset; `some ""` = set to the
empty string), the home directory as `dirs::home_dir()` would report it,
and the clock reading formatted as `to_rfc3339_opts(Secs, false)`. -/
structure Env where
  workingTimeRecord : Option String
  homeDir : Option String
  now : String
deriving DecidableEq

instance {ε α : Type} [DecidableEq ε] [DecidableEq α] : DecidableEq (Except ε α) := fun x y =>
  match x, y with
  | .ok a, .ok b =>
    if h : a = b then isTrue (congrArg Except.ok h) else isFalse (fun hc => h (Except.ok.inj hc))
  | .error a, .error b =>
    if h : a = b then isTrue (congrArg Except.error h)
    else isFalse (fun hc => h (Except.error.inj hc))
  | .ok _, .error _ => isFalse (fun hc => Except.noConfusion hc)
  | .error _, .ok _ => isFalse (fun hc => Except.noConfusion hc)

def TASK_NAME_NOT_PROVIDED_MSG : String := "タスク名が提供されていません。"

def FILENAME_NOT_PROVIDED_MSG : String := "ファイル名が指定されていません"

def HOME_DIR_PANIC_MSG : String := "ホームディレクトリが見つかりません"

/-- `env::var("WORKING_TIME_RECORD").unwrap_or_else(|_| home_dir().expect(..)
.join("working_time_record.txt") ..)`: the variable's value is used
whenever the variable is present (even empty); otherwise the default
path under the home directory, and a panic when the home directory
cannot be determined. -/
def get_working_time_record_path (env : Env) : Except RunError String :=
  match env.workingTimeRecord with
  | some v => .ok v
  | none =>
    match env.homeDir with
    | some h => .ok (h ++ "/working_time_record.txt")
    | none => .error (.panic HOME_DIR_PANIC_MSG)

/-- The `"-f" | "--file"` match arm of `parse_arguments`. -/
def isFileFlag (a : String) : Bool :=
  a = "-f" || a = "--file"

/-- The `while let Some(arg) = iter.next()` loop of `parse_arguments`:
scans the arguments after program name and subcommand, with the current
file path and the positional arguments accumulated so far. -/
def parseLoop : List String → String → List String → Except RunError (String × List String)
  | [], fp, acc => .ok (fp, acc)
  | a :: rest, fp, acc =>
    if isFileFlag a then
      match rest with
      | [] => .error (.recoverable FILENAME_NOT_PROVIDED_MSG)
      | v :: rest2 => parseLoop rest2 v acc
    else
      parseLoop rest fp (acc ++ [a])

/-- `parse_arguments`: the default path is computed first (`let mut
file_path = get_working_time_record_path();`), then the loop scans
`args.iter().skip(2)`. -/
def parse_arguments (env : Env) (args : List String) : Except RunError (String × List String) :=
  match get_working_time_record_path env with
  | .error e => .error e
  | .ok fp0 => parseLoop (args.drop 2) fp0 []

/-- `get_current_time`: `Local::now().to_rfc3339_opts(SecondsFormat::Secs, false)`. -/
def get_current_time (env : Env) : String :=
  env.now

/-- `write_to_file`: one append-mode open and one `write_all` of the
whole record; in the trace it is the single write effect. -/
def write_to_file (path content : String) : Effect :=
  .fileWrite path content

/-- `handle_start_command`: parse, capture the timestamp, require a first
positional argument as the task name, append
`<timestamp>\tstart\t<task>\n`. -/
def handle_start_command (env : Env) (args : List String) :
    Except RunError Unit × List Effect :=
  match parse_arguments env args with
  | .error e => (.error e, [])
  | .ok (fp, rem) =>
    match rem with
    | [] => (.error (.recoverable TASK_NAME_NOT_PROVIDED_MSG), [.clockRead])
    | t :: _ =>
      (.ok (), [.clockRead, write_to_file fp (get_current_time env ++ "\tstart\t" ++ t ++ "\n")])

/-- `handle_stop_command`: parse (positional arguments ignored), capture
the timestamp, append `<timestamp>\tstop\t\n`. -/
def handle_stop_command (env : Env) (args : List String) :
    Except RunError Unit × List Effect :=
  match parse_arguments env args with
  | .error e => (.error e, [])
  | .ok (fp, _rem) =>
    (.ok (), [.clockRead, write_to_file fp (get_current_time env ++ "\tstop\t\n")])

/-- `display_help`: the four `println!` lines. -/
def display_help : List Effect :=
  [.stdoutLine "Usage:",
   .stdoutLine "  start <task_name> [-f <file>]    Start tracking time for a task.",
   .stdoutLine "  stop                             Stop tracking time.",
   .stdoutLine "  help                             Display this help message."]

/-- `execute`: dispatch on `args[1]` after the length check. -/
def execute (env : Env) (args : List String) : Except RunError Unit × List Effect :=
  match args with
  | [] => (.error (.recoverable "No subcommand provided."), [])
  | [_] => (.error (.recoverable "No subcommand provided."), [])
  | _ :: sub :: _ =>
    if sub = "help" then (.ok (), display_help)
    else if sub = "start" then handle_start_command env args
    else if sub = "stop" then handle_stop_command env args
    else (.error (.recoverable ("Invalid subcommand '" ++ sub ++ "'.")), [])

/-! ### Helper lemmas about the argument-scanning loop -/

/-- Unfolding equation of the loop at a non-empty argument list. -/
theorem parseLoop_cons (a : String) (rest : List String) (fp : String) (acc : List String) :
    parseLoop (a :: rest) fp acc =
      if isFileFlag a then
        match rest with
        | [] => .error (.recoverable FILENAME_NOT_PROVIDED_MSG)
        | v :: rest2 => parseLoop rest2 v acc
      else parseLoop rest fp (acc ++ [a]) := by
  rw [parseLoop.eq_def]

/-- A `-f`/`--file` token consumes the next argument verbatim as the new
file path, whatever that argument is. -/
theorem parseLoop_flag_cons (f v : String) (rest : List String) (fp : String)
    (acc : List String) (hf : isFileFlag f = true) :
    parseLoop (f :: v :: rest) fp acc = parseLoop rest v acc := by
  rw [parseLoop_cons, if_pos hf]

/-- A non-flag token is pushed onto the positional accumulator. -/
theorem parseLoop_other_cons (a : String) (rest : List String) (fp : String)
    (acc : List String) (ha : isFileFlag a = false) :
    parseLoop (a :: rest) fp acc = parseLoop rest fp (acc ++ [a]) := by
  rw [parseLoop_cons, if_neg (by simp [ha])]

/-- A dangling flag at the end of the arguments fails the scan. -/
theorem parseLoop_flag_last (f : String) (fp : String) (acc : List String)
    (hf : isFileFlag f = true) :
    parseLoop [f] fp acc = .error (.recoverable FILENAME_NOT_PROVIDED_MSG) := by
  rw [parseLoop_cons, if_pos hf]

/-- A run of non-flag arguments is appended, in order, to the positional
accumulator, and leaves the file path unchanged. -/
theorem parseLoop_flagFree (l : List String) : ∀ (fp : String) (acc : List String),
    (∀ a ∈ l, isFileFlag a = false) → parseLoop l fp acc = .ok (fp, acc ++ l) := by
  induction l with
  | nil => intro fp acc _; simp [parseLoop]
  | cons a rest ih =>
    intro fp acc h
    have ha : isFileFlag a = false := h a (List.mem_cons_self a rest)
    have hrest : ∀ b ∈ rest, isFileFlag b = false := fun b hb => h b (List.mem_cons_of_mem a hb)
    rw [parseLoop_other_cons a rest fp acc ha]
    rw [ih fp (acc ++ [a]) hrest]
    simp

/-- Auxiliary form of `parseLoop_append_ok`, by strong induction on the
length of the first segment. -/
theorem parseLoop_append_ok_aux : ∀ (n : Nat) (l1 : List String), l1.length ≤ n →
    ∀ (l2 : List String) (fp : String) (acc : List String) (fp1 : String) (acc1 : List String),
    parseLoop l1 fp acc = .ok (fp1, acc1) →
    parseLoop (l1 ++ l2) fp acc = parseLoop l2 fp1 acc1 := by
  intro n
  induction n with
  | zero =>
    intro l1 hl l2 fp acc fp1 acc1 h
    cases l1 with
    | nil =>
      simp only [parseLoop, Except.ok.injEq, Prod.mk.injEq] at h
      obtain ⟨rfl, rfl⟩ := h
      rw [List.nil_append]
    | cons a rest => simp at hl
  | succ n ih =>
    intro l1 hl l2 fp acc fp1 acc1 h
    cases l1 with
    | nil =>
      simp only [parseLoop, Except.ok.injEq, Prod.mk.injEq] at h
      obtain ⟨rfl, rfl⟩ := h
      rw [List.nil_append]
    | cons a rest =>
      cases ha : isFileFlag a with
      | true =>
        cases rest with
        | nil =>
          rw [parseLoop_flag_last a fp acc ha] at h
          exact Except.noConfusion h
        | cons v rest2 =>
          rw [parseLoop_flag_cons a v rest2 fp acc ha] at h
          have hlen : rest2.length ≤ n := by
            simp only [List.length_cons] at hl; omega
          have hrec := ih rest2 hlen l2 v acc fp1 acc1 h
          rw [List.cons_append, List.cons_append]
          rw [parseLoop_flag_cons a v (rest2 ++ l2) fp acc ha]
          exact hrec
      | false =>
        rw [parseLoop_other_cons a rest fp acc ha] at h
        have hlen : rest.length ≤ n := by
          simp only [List.length_cons] at hl; omega
        have hrec := ih rest hlen l2 fp (acc ++ [a]) fp1 acc1 h
        rw [List.cons_append]
        rw [parseLoop_other_cons a (rest ++ l2) fp acc ha]
        exact hrec

/-- If the loop accepts a first segment, scanning the concatenation
continues from the state the first segment produced: flag/value pairs
never straddle the boundary of an accepted segment. -/
theorem parseLoop_append_ok {l1 l2 : List String} {fp : String} {acc : List String}
    {fp1 : String} {acc1 : List String}
    (h : parseLoop l1 fp acc = .ok (fp1, acc1)) :
    parseLoop (l1 ++ l2) fp acc = parseLoop l2 fp1 acc1 :=
  parseLoop_append_ok_aux l1.length l1 (Nat.le_refl _) l2 fp acc fp1 acc1 h

/-- When default path resolution succeeds, `parse_arguments` is the loop
over the arguments after program name and subcommand. -/
theorem parse_arguments_eq (env : Env) (p s : String) (tail : List String) (fp0 : String)
    (hget : get_working_time_record_path env = .ok fp0) :
    parse_arguments env (p :: s :: tail) = parseLoop tail fp0 [] := by
  unfold parse_arguments
  rw [hget]
  rfl


/-- Dispatch of the `start` subcommand goes to `handle_start_command`. -/
theorem execute_start (env : Env) (p : String) (rest : List String) :
    execute env (p :: "start" :: rest) = handle_start_command env (p :: "start" :: rest) := rfl

/-- Dispatch of the `stop` subcommand goes to `handle_stop_command`. -/
theorem execute_stop (env : Env) (p : String) (rest : List String) :
    execute env (p :: "stop" :: rest) = handle_stop_command env (p :: "stop" :: rest) := rfl





/-! ### The claims -/

/-- C1 (counterexample): the claim says that with a `-f` flag and value
present the default resolution is never applied and the run never aborts
on an unresolvable home directory; but `parse_arguments` computes the
default path first, so with `WORKING_TIME_RECORD` unset and no home
directory the run aborts with the home-directory panic even though
`-f F` is present. -/
theorem C1_counterexample :
    execute ⟨none, none, "2024-01-15T10:30:00+09:00"⟩ ["p", "start", "taskA", "-f", "F"]
      = (.error (.panic HOME_DIR_PANIC_MSG), []) := by
  decide

/-- C1 (amended): default file path resolution is computed eagerly, before
the flags are scanned: whenever `WORKING_TIME_RECORD` is unset and the
home directory is unavailable the invocation aborts with the
home-directory panic, `-f` or not; when the default resolution succeeds,
a `-f` flag followed by a value does make the flag's value the resolved
path. -/
theorem C1_amended :
    (∀ (env : Env) (args : List String),
        env.workingTimeRecord = none → env.homeDir = none →
        parse_arguments env args = .error (.panic HOME_DIR_PANIC_MSG))
    ∧ (∀ (env : Env) (fp0 p s v : String) (post : List String),
        get_working_time_record_path env = .ok fp0 →
        (∀ a ∈ post, isFileFlag a = false) →
        parse_arguments env (p :: s :: "-f" :: v :: post) = .ok (v, post)) := by
  constructor
  · intro env args h1 h2
    simp [parse_arguments, get_working_time_record_path, h1, h2]
  · intro env fp0 p s v post hget hpost
    rw [parse_arguments_eq env p s _ fp0 hget]
    rw [parseLoop_flag_cons "-f" v post fp0 [] rfl]
    rw [parseLoop_flagFree post v [] hpost]
    rw [List.nil_append]

/-- C1 (witness): both parts of the amended claim at concrete inputs. -/
theorem C1_witness :
    execute ⟨none, none, "2024-01-15T10:30:00+09:00"⟩ ["p", "start", "taskA", "-f", "F"]
      = (.error (.panic HOME_DIR_PANIC_MSG), [])
    ∧ parse_arguments ⟨none, none, "T"⟩ ["p", "stop", "-f", "F"]
      = .error (.panic HOME_DIR_PANIC_MSG)
    ∧ parse_arguments ⟨some "E", some "/h", "T"⟩ ["p", "start", "-f", "F", "taskA"]
      = .ok ("F", ["taskA"]) :=
  ⟨by decide,
   C1_amended.1 ⟨none, none, "T"⟩ ["p", "stop", "-f", "F"] rfl rfl,
   C1_amended.2 ⟨some "E", some "/h", "T"⟩ "E" "p" "start" "F" ["taskA"] rfl (by decide)⟩

/-- C2 (counterexample): the claim says that unless `WORKING_TIME_RECORD`
is set and non-empty, the resolved path is the home default; but when the
variable is set to the empty string, `env::var` succeeds and the code
uses the empty value verbatim instead of the home default. -/
theorem C2_counterexample :
    parse_arguments ⟨some "", some "/home/u", "T"⟩ ["p", "start", "taskA"]
      = .ok ("", ["taskA"])
    ∧ "" ≠ "/home/u" ++ "/working_time_record.txt" := by
  constructor
  · decide
  · decide

/-- C2 (amended): without a `-f`/`--file` flag, if `WORKING_TIME_RECORD`
is set — even to the empty string — the resolved path is its value
verbatim; if it is unset, the resolved path is
`<home_directory>/working_time_record.txt`. -/
theorem C2_amended :
    (∀ (env : Env) (v p s : String) (pos : List String),
        env.workingTimeRecord = some v →
        (∀ a ∈ pos, isFileFlag a = false) →
        parse_arguments env (p :: s :: pos) = .ok (v, pos))
    ∧ (∀ (env : Env) (h p s : String) (pos : List String),
        env.workingTimeRecord = none → env.homeDir = some h →
        (∀ a ∈ pos, isFileFlag a = false) →
        parse_arguments env (p :: s :: pos) = .ok (h ++ "/working_time_record.txt", pos)) := by
  constructor
  · intro env v p s pos hv hpos
    have hget : get_working_time_record_path env = .ok v := by
      simp [get_working_time_record_path, hv]
    rw [parse_arguments_eq env p s pos v hget]
    rw [parseLoop_flagFree pos v [] hpos]
    rw [List.nil_append]
  · intro env h p s pos hv hh hpos
    have hget : get_working_time_record_path env = .ok (h ++ "/working_time_record.txt") := by
      simp [get_working_time_record_path, hv, hh]
    rw [parse_arguments_eq env p s pos _ hget]
    rw [parseLoop_flagFree pos _ [] hpos]
    rw [List.nil_append]

/-- C2 (witness): both branches of the amended claim at the spec's own
examples, and the home default spelled out as one literal. -/
theorem C2_witness :
    parse_arguments ⟨some "custom.txt", some "/home/u", "T"⟩ ["p", "start", "taskA"]
      = .ok ("custom.txt", ["taskA"])
    ∧ parse_arguments ⟨none, some "/home/u", "T"⟩ ["p", "start", "taskA"]
      = .ok ("/home/u" ++ "/working_time_record.txt", ["taskA"])
    ∧ "/home/u" ++ "/working_time_record.txt" = "/home/u/working_time_record.txt" :=
  ⟨C2_amended.1 ⟨some "custom.txt", some "/home/u", "T"⟩ "custom.txt" "p" "start" ["taskA"]
     rfl (by decide),
   C2_amended.2 ⟨none, some "/home/u", "T"⟩ "/home/u" "p" "start" ["taskA"]
     rfl rfl (by decide),
   by decide⟩

/-- C3: whenever `parse_arguments` succeeds, a `start` invocation with a
non-empty positional sequence appends exactly
`<timestamp>\tstart\t<first positional>\n` (later positionals ignored,
no error), and a `stop` invocation appends exactly `<timestamp>\tstop\t\n`
with the task-name field empty. -/
theorem C3_record_format :
    (∀ (env : Env) (args : List String) (fp t : String) (ts : List String),
        parse_arguments env args = .ok (fp, t :: ts) →
        handle_start_command env args =
          (.ok (), [.clockRead, .fileWrite fp (env.now ++ "\tstart\t" ++ t ++ "\n")]))
    ∧ (∀ (env : Env) (args : List String) (fp : String) (rem : List String),
        parse_arguments env args = .ok (fp, rem) →
        handle_stop_command env args =
          (.ok (), [.clockRead, .fileWrite fp (env.now ++ "\tstop\t\n")])) := by
  constructor
  · intro env args fp t ts h
    unfold handle_start_command
    rw [h]
    rfl
  · intro env args fp rem h
    unfold handle_stop_command
    rw [h]
    rfl

/-- C3 (witness): a `start` run with an extra positional argument and a
`stop` run, both at concrete inputs; the record strings spelled out. -/
theorem C3_record_format_witness :
    handle_start_command ⟨some "E", some "/h", "T"⟩ ["p", "start", "taskA", "extra"]
      = (.ok (), [.clockRead, .fileWrite "E" ("T" ++ "\tstart\t" ++ "taskA" ++ "\n")])
    ∧ handle_stop_command ⟨some "E", some "/h", "T"⟩ ["p", "stop"]
      = (.ok (), [.clockRead, .fileWrite "E" ("T" ++ "\tstop\t\n")])
    ∧ "T" ++ "\tstart\t" ++ "taskA" ++ "\n" = "T\tstart\ttaskA\n" :=
  ⟨C3_record_format.1 ⟨some "E", some "/h", "T"⟩ ["p", "start", "taskA", "extra"]
     "E" "taskA" ["extra"] (by decide),
   C3_record_format.2 ⟨some "E", some "/h", "T"⟩ ["p", "stop"] "E" [] (by decide),
   by decide⟩

/-- C4: a `start` invocation whose positional sequence is empty fails
with the task-name-missing error, and its trace holds no file write: the
target file is neither created nor modified. -/
theorem C4_task_name_missing (env : Env) (args : List String) (fp : String)
    (h : parse_arguments env args = .ok (fp, [])) :
    handle_start_command env args
      = (.error (.recoverable TASK_NAME_NOT_PROVIDED_MSG), [Effect.clockRead]) := by
  unfold handle_start_command
  rw [h]


/-- C4 (witness): the spec's own input `["p","start","-f","F"]`. -/
theorem C4_task_name_missing_witness :
    handle_start_command ⟨some "E", some "/h", "T"⟩ ["p", "start", "-f", "F"]
      = (.error (.recoverable TASK_NAME_NOT_PROVIDED_MSG), [Effect.clockRead]) :=
  C4_task_name_missing ⟨some "E", some "/h", "T"⟩ ["p", "start", "-f", "F"] "F" (by decide)

/-- C5: when the default resolution succeeds and a `start` or `stop`
invocation ends with a `-f`/`--file` token that is actually scanned as a
flag (the arguments before it parse cleanly), the run fails with the
filename-not-provided error and the trace is empty: no clock read (no
timestamp captured) and no file write. -/
theorem C5_dangling_flag (env : Env) (fp0 p sub f : String) (pre : List String)
    (fp1 : String) (pos1 : List String)
    (hget : get_working_time_record_path env = .ok fp0)
    (hsub : sub = "start" ∨ sub = "stop")
    (hf : isFileFlag f = true)
    (hpre : parseLoop pre fp0 [] = .ok (fp1, pos1)) :
    execute env (p :: sub :: (pre ++ [f]))
      = (.error (.recoverable FILENAME_NOT_PROVIDED_MSG), []) := by
  have hparse : parse_arguments env (p :: sub :: (pre ++ [f]))
      = .error (.recoverable FILENAME_NOT_PROVIDED_MSG) := by
    rw [parse_arguments_eq env p sub _ fp0 hget]
    rw [parseLoop_append_ok hpre]
    exact parseLoop_flag_last f fp1 pos1 hf
  rcases hsub with rfl | rfl
  · rw [execute_start]
    unfold handle_start_command
    rw [hparse]
  · rw [execute_stop]
    unfold handle_stop_command
    rw [hparse]

/-- C5 (witness): the spec's own input `["p","start","taskA","-f"]`. -/
theorem C5_dangling_flag_witness :
    execute ⟨some "E", some "/h", "T"⟩ ["p", "start", "taskA", "-f"]
      = (.error (.recoverable FILENAME_NOT_PROVIDED_MSG), []) :=
  C5_dangling_flag ⟨some "E", some "/h", "T"⟩ "E" "p" "start" "-f" ["taskA"] "E" ["taskA"]
    rfl (Or.inl rfl) rfl (by decide)

/-- C6: when the flag appears again later, each occurrence followed by a
value, the value of the last occurrence is the resolved path: whatever
path and positionals the earlier arguments produced, a final
`<flag> <value>` followed by flag-free arguments resolves to that value. -/
theorem C6_last_flag_wins (env : Env) (fp0 p s f v : String) (pre post : List String)
    (fp1 : String) (pos1 : List String)
    (hget : get_working_time_record_path env = .ok fp0)
    (hf : isFileFlag f = true)
    (hpre : parseLoop pre fp0 [] = .ok (fp1, pos1))
    (hpost : ∀ a ∈ post, isFileFlag a = false) :
    parse_arguments env (p :: s :: (pre ++ f :: v :: post)) = .ok (v, pos1 ++ post) := by
  rw [parse_arguments_eq env p s _ fp0 hget]
  rw [parseLoop_append_ok hpre]
  rw [parseLoop_flag_cons f v post fp1 pos1 hf]
  exact parseLoop_flagFree post v pos1 hpost

/-- C6 (witness): `-f A` then `-f B` resolves to `B`. -/
theorem C6_last_flag_wins_witness :
    parse_arguments ⟨some "E", some "/h", "T"⟩ ["p", "start", "-f", "A", "-f", "B"]
      = .ok ("B", []) :=
  C6_last_flag_wins ⟨some "E", some "/h", "T"⟩ "E" "p" "start" "-f" "B" ["-f", "A"] []
    "A" [] rfl rfl (by decide) (by decide)

/-- C7: any argument list of length below two fails dispatch with exactly
the message `No subcommand provided.`, with an empty trace: no file is
written. -/
theorem C7_missing_subcommand (env : Env) (args : List String) (h : args.length < 2) :
    execute env args = (.error (.recoverable "No subcommand provided."), []) := by
  match args with
  | [] => rfl
  | [_] => rfl
  | _ :: _ :: l =>
    simp only [List.length_cons] at h
    omega

/-- C7 (witness): the empty argument list. -/
theorem C7_missing_subcommand_witness :
    execute ⟨none, none, "T"⟩ [] = (.error (.recoverable "No subcommand provided."), []) :=
  C7_missing_subcommand ⟨none, none, "T"⟩ [] (by decide)

/-- C8: any subcommand outside {help, start, stop} fails dispatch with
the message `Invalid subcommand '<value>'.` naming the offending value,
with an empty trace. -/
theorem C8_unknown_subcommand (env : Env) (p sub : String) (rest : List String)
    (h1 : sub ≠ "help") (h2 : sub ≠ "start") (h3 : sub ≠ "stop") :
    execute env (p :: sub :: rest)
      = (.error (.recoverable ("Invalid subcommand '" ++ sub ++ "'.")), []) := by
  have hd : execute env (p :: sub :: rest)
      = if sub = "help" then ((Except.ok ()), display_help)
        else if sub = "start" then handle_start_command env (p :: sub :: rest)
        else if sub = "stop" then handle_stop_command env (p :: sub :: rest)
        else (.error (.recoverable ("Invalid subcommand '" ++ sub ++ "'.")), []) := rfl
  rw [hd, if_neg h1, if_neg h2, if_neg h3]

/-- C8 (witness): the spec's example `["p","bogus"]`, and its message
spelled out as one literal. -/
theorem C8_unknown_subcommand_witness :
    execute ⟨none, some "/h", "T"⟩ ["p", "bogus"]
      = (.error (.recoverable ("Invalid subcommand '" ++ "bogus" ++ "'.")), [])
    ∧ "Invalid subcommand '" ++ "bogus" ++ "'." = "Invalid subcommand 'bogus'." :=
  ⟨C8_unknown_subcommand ⟨none, some "/h", "T"⟩ "p" "bogus" []
     (by decide) (by decide) (by decide),
   by decide⟩

/-- C9: the token right after a `-f`/`--file` flag is consumed verbatim
as the file path — the scan continues after it without inspecting it, so
it is never treated as a flag or a positional argument even when it is
itself flag-like; on `["p","start","-f","--file","X"]` the resolved path
is `--file` and `X` is the sole positional argument. -/
theorem C9_verbatim_flag_value :
    (∀ (f v : String) (rest : List String) (fp : String) (acc : List String),
        isFileFlag f = true → parseLoop (f :: v :: rest) fp acc = parseLoop rest v acc)
    ∧ parse_arguments ⟨some "default.txt", some "/h", "T"⟩ ["p", "start", "-f", "--file", "X"]
      = .ok ("--file", ["X"]) :=
  ⟨fun f v rest fp acc hf => parseLoop_flag_cons f v rest fp acc hf, by decide⟩

/-- C9 (witness): the general conjunct applied at a flag-like value. -/
theorem C9_verbatim_flag_value_witness :
    parseLoop ["-f", "--file", "X"] "D" [] = parseLoop ["X"] "--file" [] :=
  C9_verbatim_flag_value.1 "-f" "--file" ["X"] "D" [] rfl

/-- C10: the embedded tool is a function of the argument list, the
environment variable, the home directory and the clock reading: two runs
agreeing on those agree on the parse result (resolved path and
positional sequence) and on the full outcome and trace (appended record
included). -/
theorem C10_deterministic (env1 env2 : Env) (args1 args2 : List String)
    (he : env1 = env2) (ha : args1 = args2) :
    parse_arguments env1 args1 = parse_arguments env2 args2
    ∧ execute env1 args1 = execute env2 args2 := by
  subst he
  subst ha
  exact ⟨rfl, rfl⟩

/-- C10 (witness): two identical concrete runs. -/
theorem C10_deterministic_witness :
    parse_arguments ⟨some "E", some "/h", "T"⟩ ["p", "start", "taskA"]
      = parse_arguments ⟨some "E", some "/h", "T"⟩ ["p", "start", "taskA"]
    ∧ execute ⟨some "E", some "/h", "T"⟩ ["p", "start", "taskA"]
      = execute ⟨some "E", some "/h", "T"⟩ ["p", "start", "taskA"] :=
  C10_deterministic ⟨some "E", some "/h", "T"⟩ ⟨some "E", some "/h", "T"⟩
    ["p", "start", "taskA"] ["p", "start", "taskA"] rfl rfl
